import Mathlib

/-!
Verification of the transCSSR demo driver (`demo_transCSSR.py`) against its
specification. The driver loads two symbol sequences, checks they have equal
length, estimates predictive distributions, runs the transCSSR state
inference, reports the resulting epsilon-transducer, and filters the training
data back through the inferred model. The inference and filtering routines
live in `transCSSR.py` and `filter_data_methods.py`, which are not part of
the sources verified here; those are modelled from the specification and each
such definition says so in its doc comment.
-/

namespace TransCSSRDemo

/-- A joint (input, output) symbol pair, as in the spec's JointSymbol. -/
abbrev JointSym := Char × Char

/-! ## Python string primitives used by the driver (lines 57-62) -/

/-- The characters Python's `str.strip()` removes. -/
def isPyWhitespace (c : Char) : Bool :=
  c = ' ' || c = '\t' || c = '\n' || c = '\x0d' || c = '\x0b' || c = '\x0c'

/-- Left part of Python `str.strip()`: drop leading whitespace. -/
def pyStripLeft (s : List Char) : List Char :=
  s.dropWhile isPyWhitespace

/-- Right part of Python `str.strip()`: drop trailing whitespace. -/
def pyStripRight (s : List Char) : List Char :=
  (s.reverse.dropWhile isPyWhitespace).reverse

/-- Python `str.strip()`: drop whitespace from both ends. -/
def pyStrip (s : List Char) : List Char :=
  pyStripRight (pyStripLeft s)

/-- Python `file.readline()` on the whole file content: the first line,
including its terminating newline when the content has one. -/
def readline (content : List Char) : List Char :=
  let firstLine := content.takeWhile (fun c => c ≠ '\n')
  match content.dropWhile (fun c => c ≠ '\n') with
  | [] => firstLine
  | _ :: _ => firstLine ++ ['\n']

/-- `open(...).readline().strip()` — how the driver turns a data file's
content into the symbol sequence it trains on (lines 57 and 62). -/
def loadFirstLine (content : List Char) : List Char :=
  pyStrip (readline content)

/-- Lines 59-62 of the driver: when the input-process name is empty the
input sequence is synthesized as `'0' * len(stringY)`; otherwise it is the
stripped first line of the input data file. -/
def loadStringX (xtName : String) (stringY : List Char) (fileX : List Char) :
    List Char :=
  if xtName = "" then List.replicate stringY.length '0'
  else loadFirstLine fileX

/-! ## Driver configuration (lines 35-91) -/

/-- The driver's output-process name (line 35). -/
def Yt_name : List Char := "coinflip-excite_w_refrac".toList

/-- The driver's input-process name (line 44). -/
def Xt_name : List Char := "coinflip".toList

/-- The input alphabet fixed at line 79. -/
def axs : List Char := ['0', '1', '2']

/-- The output alphabet fixed at line 80. -/
def ays : List Char := ['0', '1']

/-- `itertools.product` of two lists: all pairs, the first component varying
slowest, exactly the order Python's `itertools.product(xs, ys)` yields. -/
def itertoolsProduct (xs : List Char) (ys : List Char) : List (Char × Char) :=
  xs.flatMap (fun x => ys.map (fun y => (x, y)))

/-- Line 82 of the driver: all possible emission pairs (x, y). -/
def e_symbols : List (Char × Char) := itertoolsProduct axs ays

/-- The driver's maximum history length (line 91). -/
def L_max_script : Nat := 1

/-! ## Distribution estimation (spec §4.1)

`estimate_predictive_distributions` lives in `transCSSR.py`, which is not
among the verified sources; it is modelled from the specification. -/

/-- The history of length `L` that precedes position `t` of the joint
sequence: its most recent `L` joint symbols (all of them when `L = t`). -/
def histAt (joint : List JointSym) (t : Nat) (L : Nat) : List JointSym :=
  (joint.take t).drop (t - L)

/-- Every (history, next output symbol) occurrence in the joint sequence:
for each position `t` and each history length `l ≤ min t L_max`, the
length-`l` history before `t` together with the output symbol at `t`. -/
def histOccs (joint : List JointSym) (L_max : Nat) :
    List (List JointSym × Char) :=
  (List.range joint.length).flatMap (fun t =>
    ((List.range (L_max + 1)).filter (fun l => decide (l ≤ t))).map
      (fun l => (histAt joint t l, (joint.getD t ('0', '0')).2)))

/-- Modelled from the spec: `estimate_predictive_distributions` of
`transCSSR.py` (not among the verified sources). Per §4.1 it is a pure
function of the data and `L_max` producing two tables: the marginal table
counts each distinct history of length 0..L_max at every occurrence that has
a following output symbol, and the future table counts which output symbol
immediately follows each occurrence; histories that never occur get no
entry. -/
def estimate_predictive_distributions (stringX : List Char)
    (stringY : List Char) (L_max : Nat) :
    List (List JointSym × Nat) × List ((List JointSym × Char) × Nat) :=
  let joint := stringX.zip stringY
  let occs := histOccs joint L_max
  (((occs.map Prod.fst).dedup).map
      (fun w => (w, (occs.filter (fun o => decide (o.1 = w))).length)),
   (occs.dedup).map
      (fun o => (o, (occs.filter (fun p => decide (p = o))).length)))

/-! ## State inference (spec §4.2-§4.4) -/

/-- The position of `w` in `l`, `none` when absent (the state index a
history is mapped to). -/
def idxIn (l : List (List JointSym)) (w : List JointSym) : Option Nat :=
  match l with
  | [] => none
  | a :: rest => if a = w then some 0 else (idxIn rest w).map (· + 1)

/-- The histories the marginal table records with a positive count — per
§4.1 exactly the histories encountered in the training data. -/
def positiveHists (marg : List (List JointSym × Nat)) :
    List (List JointSym) :=
  (marg.filter (fun p => decide (0 < p.2))).map Prod.fst

/-- Modelled from the spec: `run_transCSSR` of `transCSSR.py` (not among the
verified sources). It consumes the two tables and returns the transducer:
`epsilon` maps each history to its causal state, total on every history
encountered in training (§3 invariant); `invepsilon` enumerates the states;
`morph_by_state` gives each state's next-output counts from the future
table. The statistical grouping of §4.2 is abstracted to the finest
partition (one state per recorded history) — the claims checked here use
only totality on encountered histories and determinism, which every
alpha-indexed grouping shares. The alphabet and process-name arguments of
the Python signature only label exported report files. -/
def run_transCSSR (marg : List (List JointSym × Nat))
    (fut : List ((List JointSym × Char) × Nat)) (_L_max : Nat)
    (_axs : List Char) (_ays : List Char) (_esyms : List (Char × Char))
    (_xtName : List Char) (_ytName : List Char) :
    (List JointSym → Option Nat) × List Nat × (Nat → Char → Nat) :=
  (fun h => idxIn (positiveHists marg) h,
   List.range (positiveHists marg).length,
   fun s y =>
     match (positiveHists marg)[s]? with
     | some h => ((fut.find? (fun p => decide (p.1 = (h, y)))).map Prod.snd).getD 0
     | none => 0)

/-! ## Filtering (spec §4.5) -/

/-- Modelled from the spec: `filter_and_predict` of
`filter_data_methods.py` (not among the verified sources). Per §4.5 it
replays the symbol pair sequence through the trained transducer: at each
position `t` in 0..T-1 it matches the most recent `L_max`-or-fewer joint
symbols against the known histories; a match yields the synchronized state
(`some s`) and that state's predictive distribution, no match yields the
Unsynchronized marker (`none`) as data, with no prediction. The trajectory
covers the full input length; the machine never halts early. -/
def filter_and_predict (stringX : List Char) (stringY : List Char)
    (epsilon : List JointSym → Option Nat) (morph_by_state : Nat → Char → Nat)
    (L_max : Nat) :
    List (Option Nat) × List (Option (Char → Nat)) :=
  let joint := stringX.zip stringY
  ((List.range joint.length).map
      (fun t => epsilon (histAt joint t (min t L_max))),
   (List.range joint.length).map
      (fun t =>
        match epsilon (histAt joint t (min t L_max)) with
        | some s => some (fun y => morph_by_state s y)
        | none => none))

/-! ## The driver's control flow (lines 93-117) -/

/-- The error taxonomy of spec §7 relevant to training. -/
inductive DataError
  | mismatchedLengths
  | insufficientData
deriving DecidableEq

/-- Lines 93-99 of the driver, parametric in the estimator: compute the two
lengths, assert they are equal, and only then invoke the estimator. The
estimator is a parameter so that the theorems can state that on the failure
path it is never consulted. -/
def demoTrainGen
    (est : List Char → List Char → Nat →
      List (List JointSym × Nat) × List ((List JointSym × Char) × Nat))
    (stringX : List Char) (stringY : List Char) (L_max : Nat) :
    Except DataError
      (List (List JointSym × Nat) × List ((List JointSym × Char) × Nat)) :=
  if stringX.length = stringY.length then Except.ok (est stringX stringY L_max)
  else Except.error DataError.mismatchedLengths

/-- Everything the driver's pipeline produces (lines 99-117). -/
structure ScriptResult where
  word_lookup_marg : List (List JointSym × Nat)
  word_lookup_fut : List ((List JointSym × Char) × Nat)
  epsilon : List JointSym → Option Nat
  invepsilon : List Nat
  morph_by_state : Nat → Char → Nat
  filtered_states : List (Option Nat)
  filtered_probs : List (Option (Char → Nat))

/-- Lines 93-117 of the driver: assert equal lengths, then run
`estimate_predictive_distributions`, feed its two tables to
`run_transCSSR`, and feed the resulting transducer to
`filter_and_predict`, in that order. -/
def demoScript (stringX : List Char) (stringY : List Char) :
    Except DataError ScriptResult :=
  if stringX.length = stringY.length then
    let tables := estimate_predictive_distributions stringX stringY L_max_script
    let model := run_transCSSR tables.1 tables.2 L_max_script axs ays e_symbols
      Xt_name Yt_name
    let traj := filter_and_predict stringX stringY model.1 model.2.2 L_max_script
    Except.ok
      { word_lookup_marg := tables.1
        word_lookup_fut := tables.2
        epsilon := model.1
        invepsilon := model.2.1
        morph_by_state := model.2.2
        filtered_states := traj.1
        filtered_probs := traj.2 }
  else Except.error DataError.mismatchedLengths

/-- Training followed by filtering the very same data (the driver's actual
data flow): the transducer inferred from `stringX`/`stringY`. -/
def trainModel (stringX : List Char) (stringY : List Char) (L_max : Nat) :
    (List JointSym → Option Nat) × List Nat × (Nat → Char → Nat) :=
  let tables := estimate_predictive_distributions stringX stringY L_max
  run_transCSSR tables.1 tables.2 L_max axs ays e_symbols Xt_name Yt_name

/-- The causal-state trajectory obtained by replaying the training data
through the model trained on it. -/
def replayStates (stringX : List Char) (stringY : List Char) (L_max : Nat) :
    List (Option Nat) :=
  (filter_and_predict stringX stringY (trainModel stringX stringY L_max).1
    (trainModel stringX stringY L_max).2.2 L_max).1

/-! ## Reporting effects (lines 103-113) -/

/-- An observable effect of the driver's reporting section. -/
inductive Effect
  | osOpen (path : List Char)
  | printLine (msg : List Char)
deriving DecidableEq

/-- Python `'...{}...'.format(arg)` restricted to one replacement: the first
occurrence of the placeholder is replaced by `arg`. -/
def fmtOne (template : List Char) (arg : List Char) : List Char :=
  match template with
  | [] => []
  | '\x7b' :: '\x7d' :: rest => arg ++ rest
  | c :: rest => c :: fmtOne rest arg

/-- Python `.format` with two arguments: replace the first two
placeholders in order. -/
def fmtTwo (template : List Char) (a : List Char) (b : List Char) :
    List Char :=
  fmtOne (fmtOne template a) b

/-- Line 103's message template. -/
def statesMsg : List Char := "The epsilon-transducer has \x7b\x7d states.".toList

/-- Line 109's dot-file path template. -/
def dotTemplate : List Char := "transCSSR_results/\x7b\x7d+\x7b\x7d.dot".toList

/-- Line 111's warning text, printed verbatim: the Python source applies no
`.format` to it, so the placeholder stays literal. -/
def warningMsg : List Char :=
  "Warning: The epsilon-transducer has \x7b\x7d states, so we will not open the dot file.".toList

/-- Line 113's results-file path template. -/
def datTemplate : List Char :=
  "transCSSR_results/\x7b\x7d+\x7b\x7d.dat_results".toList

/-- Lines 103-113 of the driver: print the state count, open the dot file
only when the transducer has fewer than 30 states (otherwise print the
warning), then open the results file unconditionally. -/
def postTraining (nStates : Nat) : List Effect :=
  [Effect.printLine (fmtOne statesMsg (toString nStates).toList)] ++
  (if nStates < 30 then [Effect.osOpen (fmtTwo dotTemplate Xt_name Yt_name)]
   else [Effect.printLine warningMsg]) ++
  [Effect.osOpen (fmtTwo datTemplate Xt_name Yt_name)]

/-! ## Theorems -/

/-- Every pair in `itertoolsProduct xs ys` has its first component from `xs`
and its second from `ys`, and conversely. -/
theorem mem_itertoolsProduct (xs ys : List Char) (x y : Char) :
    (x, y) ∈ itertoolsProduct xs ys ↔ x ∈ xs ∧ y ∈ ys := by
  simp only [itertoolsProduct, List.mem_flatMap, List.mem_map, Prod.mk.injEq]
  constructor
  · rintro ⟨a, ha, b, hb, hax, hby⟩
    exact ⟨hax ▸ ha, hby ▸ hb⟩
  · rintro ⟨hx, hy⟩
    exact ⟨x, hx, y, hy, rfl, rfl⟩

/-- C7: the emission-symbol list `e_symbols` contains exactly every pair
(x, y) with x from `axs` and y from `ays`, its length is |axs|·|ays|, and it
is in the lexicographic order `itertools.product` yields. -/
theorem e_symbols_spec :
    e_symbols.length = axs.length * ays.length ∧
    (∀ x y, (x, y) ∈ e_symbols ↔ x ∈ axs ∧ y ∈ ays) ∧
    e_symbols =
      [('0', '0'), ('0', '1'), ('1', '0'), ('1', '1'), ('2', '0'), ('2', '1')] :=
  ⟨by decide, fun x y => mem_itertoolsProduct axs ays x y, by decide⟩

/-- C8: with an empty input-process name the driver synthesizes the input
sequence as `'0'` repeated `len(stringY)` times; every symbol of it is `'0'`,
its length equals `stringY`'s by construction, and the equal-length
assertion's failure branch is unreachable on this path. -/
theorem syntheticInputAllZeros (stringY fileX : List Char) :
    loadStringX "" stringY fileX = List.replicate stringY.length '0' ∧
    (∀ c ∈ loadStringX "" stringY fileX, c = '0') ∧
    (loadStringX "" stringY fileX).length = stringY.length ∧
    demoScript (loadStringX "" stringY fileX) stringY ≠
      Except.error DataError.mismatchedLengths := by
  have h : loadStringX "" stringY fileX = List.replicate stringY.length '0' := rfl
  refine ⟨h, ?_, ?_, ?_⟩
  · intro c hc
    rw [h] at hc
    exact List.eq_of_mem_replicate hc
  · rw [h, List.length_replicate]
  · rw [h]
    simp [demoScript]

/-- C1: the driver computes the two lengths and asserts their equality
before the estimator ever runs — on unequal lengths the result is the
mismatched-length `DataError` whatever the estimator is (so no counting has
occurred), and on equal lengths the estimator's result is returned. -/
theorem assertGuardsEstimation
    (est est' : List Char → List Char → Nat →
      List (List JointSym × Nat) × List ((List JointSym × Char) × Nat))
    (stringX stringY : List Char) (L : Nat) :
    (stringX.length ≠ stringY.length →
      demoTrainGen est stringX stringY L =
        Except.error DataError.mismatchedLengths ∧
      demoTrainGen est stringX stringY L =
        demoTrainGen est' stringX stringY L) ∧
    (stringX.length = stringY.length →
      demoTrainGen est stringX stringY L =
        Except.ok (est stringX stringY L)) := by
  constructor <;> intro h <;> simp [demoTrainGen, h]

/-- C2: on the empty dataset — length 0, strictly below the driver's
`L_max = 1` — the driver does not raise any `DataError`: the length
assertion passes and the pipeline runs to completion, so no insufficient-data
validation exists before estimation. -/
theorem shortDataStillTrains :
    ([] : List Char).length < L_max_script ∧
    ∃ r, demoScript [] [] = Except.ok r :=
  ⟨by decide, ⟨_, rfl⟩⟩

/-- C9: the driver opens the transducer's dot graph in the external viewer
exactly when the state count is below 30; otherwise it prints a warning in
which the placeholder stays literal (the count is never interpolated), and
in either case it opens the results file. -/
theorem dotViewerBranch (n : Nat) :
    (Effect.osOpen (fmtTwo dotTemplate Xt_name Yt_name) ∈ postTraining n ↔
      n < 30) ∧
    (¬ n < 30 → Effect.printLine warningMsg ∈ postTraining n) ∧
    (∃ pre suf, warningMsg = pre ++ '\x7b' :: '\x7d' :: suf) ∧
    Effect.osOpen (fmtTwo datTemplate Xt_name Yt_name) ∈ postTraining n := by
  refine ⟨?_, ?_, ?_, ?_⟩
  · by_cases h : n < 30 <;> simp [postTraining, h]
    decide
  · intro h
    simp [postTraining, h]
  · exact ⟨"Warning: The epsilon-transducer has ".toList,
      " states, so we will not open the dot file.".toList, by decide⟩
  · by_cases h : n < 30 <;> simp [postTraining, h]

/-- `takeWhile (≠ newline)` on a newline-free prefix followed by a newline
yields exactly the prefix. -/
theorem takeWhile_firstLine (l1 rest : List Char) (h : ∀ c ∈ l1, c ≠ '\n') :
    (l1 ++ '\n' :: rest).takeWhile (fun c => c ≠ '\n') = l1 := by
  induction l1 with
  | nil => simp [List.takeWhile_cons]
  | cons a l ih =>
    have ha : a ≠ '\n' := h a (List.mem_cons_self a l)
    simp only [List.cons_append, List.takeWhile_cons, decide_eq_true_eq]
    rw [if_pos ha, ih (fun c hc => h c (List.mem_cons_of_mem a hc))]

/-- `dropWhile (≠ newline)` on a newline-free prefix followed by a newline
yields the newline and everything after it. -/
theorem dropWhile_firstLine (l1 rest : List Char) (h : ∀ c ∈ l1, c ≠ '\n') :
    (l1 ++ '\n' :: rest).dropWhile (fun c => c ≠ '\n') = '\n' :: rest := by
  induction l1 with
  | nil => simp [List.dropWhile_cons]
  | cons a l ih =>
    have ha : a ≠ '\n' := h a (List.mem_cons_self a l)
    simp only [List.cons_append, List.dropWhile_cons, decide_eq_true_eq]
    rw [if_pos ha, ih (fun c hc => h c (List.mem_cons_of_mem a hc))]

/-- Stripping from the right removes a trailing newline. -/
theorem pyStripRight_newline (s : List Char) :
    pyStripRight (s ++ ['\n']) = pyStripRight s := by
  simp [pyStripRight, List.dropWhile_cons, isPyWhitespace]

/-- Stripping a string with one trailing newline appended equals stripping
the string itself. -/
theorem pyStrip_append_newline (s : List Char) :
    pyStrip (s ++ ['\n']) = pyStrip s := by
  unfold pyStrip pyStripLeft
  rcases h : s.dropWhile isPyWhitespace with _ | ⟨a, l⟩
  · rw [List.dropWhile_append, h]
    simp [List.dropWhile_cons, isPyWhitespace, pyStripRight]
  · rw [List.dropWhile_append, h]
    simp only [List.isEmpty_cons, Bool.false_eq_true, if_false]
    exact pyStripRight_newline (a :: l)

/-- C10: the symbol sequence a data file yields is exactly its first line
with leading and trailing whitespace stripped; everything after the first
newline is ignored. -/
theorem firstLineStripped (l1 rest : List Char) (h : ∀ c ∈ l1, c ≠ '\n') :
    loadFirstLine (l1 ++ '\n' :: rest) = pyStrip l1 := by
  unfold loadFirstLine readline
  rw [takeWhile_firstLine l1 rest h, dropWhile_firstLine l1 rest h]
  exact pyStrip_append_newline l1

/-- C10 at a concrete file: content `" ab \nzq"` loads as `"ab"`. -/
theorem firstLineStripped_example :
    loadFirstLine ([' ', 'a', 'b', ' '] ++ '\n' :: ['z', 'q']) =
      pyStrip [' ', 'a', 'b', ' '] :=
  firstLineStripped [' ', 'a', 'b', ' '] ['z', 'q'] (by decide)

/-- `idxIn` finds every member of the list. -/
theorem idxIn_isSome_of_mem (l : List (List JointSym)) (w : List JointSym)
    (h : w ∈ l) : (idxIn l w).isSome = true := by
  induction l with
  | nil => cases h
  | cons a rest ih =>
    unfold idxIn
    by_cases hw : a = w
    · simp [hw]
    · simp only [if_neg hw]
      rcases List.mem_cons.mp h with h1 | h2
      · exact absurd h1.symm hw
      · obtain ⟨v, hv⟩ := Option.isSome_iff_exists.mp (ih h2)
        simp [hv]

/-- Every length-`L` history before a position of the joint sequence, with
the output symbol at that position, occurs in the occurrence list. -/
theorem histOcc_mem (joint : List JointSym) (Lm t L : Nat)
    (hL : L ≤ Lm) (hLt : L ≤ t) (ht : t < joint.length) :
    (histAt joint t L, (joint.getD t ('0', '0')).2) ∈ histOccs joint Lm := by
  unfold histOccs
  rw [List.mem_flatMap]
  refine ⟨t, List.mem_range.mpr ht, ?_⟩
  apply List.mem_map.mpr
  refine ⟨L, ?_, rfl⟩
  rw [List.mem_filter]
  exact ⟨List.mem_range.mpr (Nat.lt_succ_of_le hL), by simpa using hLt⟩

/-- Every history observed in the training data is recorded with a positive
count in the marginal table, hence is among the trained model's histories. -/
theorem hist_mem_positiveHists (sx sy : List Char) (Lm t L : Nat)
    (hL : L ≤ Lm) (hLt : L ≤ t) (ht : t < (sx.zip sy).length) :
    histAt (sx.zip sy) t L ∈
      positiveHists (estimate_predictive_distributions sx sy Lm).1 := by
  have hocc : (histAt (sx.zip sy) t L, ((sx.zip sy).getD t ('0', '0')).2) ∈
      histOccs (sx.zip sy) Lm := histOcc_mem (sx.zip sy) Lm t L hL hLt ht
  have hw : histAt (sx.zip sy) t L ∈ (histOccs (sx.zip sy) Lm).map Prod.fst :=
    List.mem_map.mpr ⟨_, hocc, rfl⟩
  have hw' : histAt (sx.zip sy) t L ∈
      ((histOccs (sx.zip sy) Lm).map Prod.fst).dedup := List.mem_dedup.mpr hw
  have hpair : (histAt (sx.zip sy) t L,
      ((histOccs (sx.zip sy) Lm).filter
        (fun o => decide (o.1 = histAt (sx.zip sy) t L))).length) ∈
      (estimate_predictive_distributions sx sy Lm).1 :=
    List.mem_map.mpr ⟨histAt (sx.zip sy) t L, hw', rfl⟩
  have hcnt : 0 < ((histOccs (sx.zip sy) Lm).filter
      (fun o => decide (o.1 = histAt (sx.zip sy) t L))).length := by
    apply List.length_pos.mpr
    intro hnil
    have hmemf : (histAt (sx.zip sy) t L, ((sx.zip sy).getD t ('0', '0')).2) ∈
        (histOccs (sx.zip sy) Lm).filter
          (fun o => decide (o.1 = histAt (sx.zip sy) t L)) := by
      rw [List.mem_filter]
      exact ⟨hocc, by simp⟩
    rw [hnil] at hmemf
    cases hmemf
  unfold positiveHists
  apply List.mem_map.mpr
  refine ⟨(histAt (sx.zip sy) t L,
    ((histOccs (sx.zip sy) Lm).filter
      (fun o => decide (o.1 = histAt (sx.zip sy) t L))).length), ?_, rfl⟩
  rw [List.mem_filter]
  exact ⟨hpair, by simpa using hcnt⟩

/-- C3: replaying the exact training sequences through the model trained on
them yields a causal-state trajectory with no Unsynchronized marker at any
position from `L_max` on — only the initial window of at most `L_max`
positions can be unsynchronized. -/
theorem replaySynchronizedAfterLmax (sx sy : List Char) (L t : Nat)
    (hLt : L ≤ t) (ht : t < (sx.zip sy).length) :
    ((replayStates sx sy L).getD t none).isSome = true := by
  have hmem : histAt (sx.zip sy) t L ∈
      positiveHists (estimate_predictive_distributions sx sy L).1 :=
    hist_mem_positiveHists sx sy L t L (le_refl L) hLt ht
  have hval : (replayStates sx sy L).getD t none =
      idxIn (positiveHists (estimate_predictive_distributions sx sy L).1)
        (histAt (sx.zip sy) t L) := by
    show (((List.range (sx.zip sy).length).map (fun u =>
        idxIn (positiveHists (estimate_predictive_distributions sx sy L).1)
          (histAt (sx.zip sy) u (min u L)))).getD t none) = _
    rw [List.getD_eq_getElem?_getD, List.getElem?_map, List.getElem?_range ht]
    simp [Nat.min_eq_right hLt]
  rw [hval]
  exact idxIn_isSome_of_mem _ _ hmem

/-- C3 at a concrete input: training on the two-step sequences "01"/"10"
with `L_max = 1`, position 1 of the replayed trajectory is synchronized. -/
theorem replaySynchronizedAfterLmax_example :
    ((replayStates ['0', '1'] ['1', '0'] 1).getD 1 none).isSome = true :=
  replaySynchronizedAfterLmax ['0', '1'] ['1', '0'] 1 1 (by decide) (by decide)

/-- C4: training is deterministic — two runs of the pipeline on the same
data, alphabets, `L_max` and significance level produce the same transducer:
the same state count, the same state map `epsilon`/`invepsilon`, and the
same morphs. -/
theorem trainingDeterministic (sx sy sx' sy' : List Char) (L L' : Nat)
    (hx : sx = sx') (hy : sy = sy') (hL : L = L') :
    trainModel sx sy L = trainModel sx' sy' L' ∧
    (trainModel sx sy L).2.1.length = (trainModel sx' sy' L').2.1.length := by
  subst hx
  subst hy
  subst hL
  exact ⟨rfl, rfl⟩

/-- C4 at a concrete input: two training runs on the sequences "01"/"10"
with `L_max = 1` agree. -/
theorem trainingDeterministic_repeat :
    trainModel ['0', '1'] ['1', '0'] 1 = trainModel ['0', '1'] ['1', '0'] 1 ∧
    (trainModel ['0', '1'] ['1', '0'] 1).2.1.length =
      (trainModel ['0', '1'] ['1', '0'] 1).2.1.length :=
  trainingDeterministic ['0', '1'] ['1', '0'] ['0', '1'] ['1', '0'] 1 1 rfl rfl rfl

/-- C5: whatever the driver's pipeline returns decomposes stage by stage:
the two tables are exactly the estimator's output on the raw streams, the
transducer is exactly `run_transCSSR` of those two tables, and the
trajectories are exactly `filter_and_predict` of that transducer — each
stage consumes precisely its predecessor's products. -/
theorem pipelineDataflow (sx sy : List Char) (r : ScriptResult)
    (h : demoScript sx sy = Except.ok r) :
    (r.word_lookup_marg, r.word_lookup_fut) =
      estimate_predictive_distributions sx sy L_max_script ∧
    (r.epsilon, r.invepsilon, r.morph_by_state) =
      run_transCSSR r.word_lookup_marg r.word_lookup_fut L_max_script
        axs ays e_symbols Xt_name Yt_name ∧
    (r.filtered_states, r.filtered_probs) =
      filter_and_predict sx sy r.epsilon r.morph_by_state L_max_script := by
  unfold demoScript at h
  split at h
  · injection h with h'
    subst h'
    exact ⟨rfl, rfl, rfl⟩
  · cases h

/-- The pipeline's result on the one-step sequences "0"/"1", spelled
stage by stage. -/
def scriptResult01 : ScriptResult :=
  { word_lookup_marg := (estimate_predictive_distributions ['0'] ['1'] L_max_script).1
    word_lookup_fut := (estimate_predictive_distributions ['0'] ['1'] L_max_script).2
    epsilon := (run_transCSSR
        (estimate_predictive_distributions ['0'] ['1'] L_max_script).1
        (estimate_predictive_distributions ['0'] ['1'] L_max_script).2
        L_max_script axs ays e_symbols Xt_name Yt_name).1
    invepsilon := (run_transCSSR
        (estimate_predictive_distributions ['0'] ['1'] L_max_script).1
        (estimate_predictive_distributions ['0'] ['1'] L_max_script).2
        L_max_script axs ays e_symbols Xt_name Yt_name).2.1
    morph_by_state := (run_transCSSR
        (estimate_predictive_distributions ['0'] ['1'] L_max_script).1
        (estimate_predictive_distributions ['0'] ['1'] L_max_script).2
        L_max_script axs ays e_symbols Xt_name Yt_name).2.2
    filtered_states := (filter_and_predict ['0'] ['1']
        (run_transCSSR
          (estimate_predictive_distributions ['0'] ['1'] L_max_script).1
          (estimate_predictive_distributions ['0'] ['1'] L_max_script).2
          L_max_script axs ays e_symbols Xt_name Yt_name).1
        (run_transCSSR
          (estimate_predictive_distributions ['0'] ['1'] L_max_script).1
          (estimate_predictive_distributions ['0'] ['1'] L_max_script).2
          L_max_script axs ays e_symbols Xt_name Yt_name).2.2
        L_max_script).1
    filtered_probs := (filter_and_predict ['0'] ['1']
        (run_transCSSR
          (estimate_predictive_distributions ['0'] ['1'] L_max_script).1
          (estimate_predictive_distributions ['0'] ['1'] L_max_script).2
          L_max_script axs ays e_symbols Xt_name Yt_name).1
        (run_transCSSR
          (estimate_predictive_distributions ['0'] ['1'] L_max_script).1
          (estimate_predictive_distributions ['0'] ['1'] L_max_script).2
          L_max_script axs ays e_symbols Xt_name Yt_name).2.2
        L_max_script).2 }

/-- C5 at a concrete input: the stage decomposition of the driver's run on
the one-step sequences "0"/"1". -/
theorem pipelineDataflow_example :
    (scriptResult01.word_lookup_marg, scriptResult01.word_lookup_fut) =
      estimate_predictive_distributions ['0'] ['1'] L_max_script ∧
    (scriptResult01.epsilon, scriptResult01.invepsilon,
      scriptResult01.morph_by_state) =
      run_transCSSR scriptResult01.word_lookup_marg
        scriptResult01.word_lookup_fut L_max_script
        axs ays e_symbols Xt_name Yt_name ∧
    (scriptResult01.filtered_states, scriptResult01.filtered_probs) =
      filter_and_predict ['0'] ['1'] scriptResult01.epsilon
        scriptResult01.morph_by_state L_max_script :=
  pipelineDataflow ['0'] ['1'] scriptResult01 rfl

/-- C6: on equal-length inputs `filter_and_predict` produces one state
label (possibly the Unsynchronized marker, as data) and one predictive
distribution for every position `t` in `0..T-1` — the trajectories have
length exactly `T` and an entry exists at each position; the machine never
halts early and no error is possible (the result type has no error case). -/
theorem filterCoversAllPositions (sx sy : List Char)
    (epsilon : List JointSym → Option Nat) (morph_by_state : Nat → Char → Nat)
    (L : Nat) (h : sx.length = sy.length) :
    (filter_and_predict sx sy epsilon morph_by_state L).1.length = sx.length ∧
    (filter_and_predict sx sy epsilon morph_by_state L).2.length = sx.length ∧
    (∀ t, t < sx.length →
      ((filter_and_predict sx sy epsilon morph_by_state L).1[t]?).isSome ∧
      ((filter_and_predict sx sy epsilon morph_by_state L).2[t]?).isSome) := by
  have h1 : (filter_and_predict sx sy epsilon morph_by_state L).1.length =
      sx.length := by
    simp [filter_and_predict, List.length_zip, h]
  have h2 : (filter_and_predict sx sy epsilon morph_by_state L).2.length =
      sx.length := by
    simp [filter_and_predict, List.length_zip, h]
  refine ⟨h1, h2, fun t ht => ⟨?_, ?_⟩⟩
  · rw [List.getElem?_eq_getElem (h1 ▸ ht)]
    rfl
  · rw [List.getElem?_eq_getElem (h2 ▸ ht)]
    rfl

/-- C6 at a concrete input: with the never-synchronizing state map the
trajectories on the two-step sequences "01"/"10" still cover both
positions. -/
theorem filterCoversAllPositions_example :
    (filter_and_predict ['0', '1'] ['1', '0'] (fun _ => none)
      (fun _ _ => 0) 1).1.length = (['0', '1'] : List Char).length ∧
    (filter_and_predict ['0', '1'] ['1', '0'] (fun _ => none)
      (fun _ _ => 0) 1).2.length = (['0', '1'] : List Char).length ∧
    (∀ t, t < (['0', '1'] : List Char).length →
      ((filter_and_predict ['0', '1'] ['1', '0'] (fun _ => none)
        (fun _ _ => 0) 1).1[t]?).isSome ∧
      ((filter_and_predict ['0', '1'] ['1', '0'] (fun _ => none)
        (fun _ _ => 0) 1).2[t]?).isSome) :=
  filterCoversAllPositions ['0', '1'] ['1', '0'] (fun _ => none)
    (fun _ _ => 0) 1 rfl

end TransCSSRDemo
